import Mathlib

set_option maxHeartbeats 1000000

namespace Sudoku

/-- A 9x9 grid of cell values (0 means empty), indexed by row then column,
mirroring the `number[][]` grids of the source component. -/
abbrev Grid := Fin 9 → Fin 9 → Nat

/-- A 9x9 grid of per-cell boolean flags, mirroring the `boolean[][]`
state arrays (`errors`, `correctCells`). -/
abbrev Flags := Fin 9 → Fin 9 → Bool

/-- The three difficulty names of the static puzzle table. -/
inductive Difficulty
  | easy
  | medium
  | hard
deriving DecidableEq

/-- Build a functional grid from a row-major list-of-lists literal
(out-of-range reads default to 0; all reads here are in range). -/
def gridOfLists (l : List (List Nat)) : Grid :=
  fun r c => (l.getD r.val []).getD c.val 0

/-- The static `easy` puzzle from `sudokuPuzzles`. -/
def easyPuzzle : Grid := gridOfLists [
  [5, 3, 0, 0, 7, 0, 0, 0, 0],
  [6, 0, 0, 1, 9, 5, 0, 0, 0],
  [0, 9, 8, 0, 0, 0, 0, 6, 0],
  [8, 0, 0, 0, 6, 0, 0, 0, 3],
  [4, 0, 0, 8, 0, 3, 0, 0, 1],
  [7, 0, 0, 0, 2, 0, 0, 0, 6],
  [0, 6, 0, 0, 0, 0, 2, 8, 0],
  [0, 0, 0, 4, 1, 9, 0, 0, 5],
  [0, 0, 0, 0, 8, 0, 0, 7, 9]]

/-- The static `medium` puzzle from `sudokuPuzzles`. -/
def mediumPuzzle : Grid := gridOfLists [
  [0, 2, 0, 6, 0, 8, 0, 0, 0],
  [5, 8, 0, 0, 0, 9, 7, 0, 0],
  [0, 0, 0, 0, 4, 0, 0, 0, 0],
  [3, 7, 0, 0, 0, 0, 5, 0, 0],
  [6, 0, 0, 0, 0, 0, 0, 0, 4],
  [0, 0, 8, 0, 0, 0, 0, 1, 3],
  [0, 0, 0, 0, 2, 0, 0, 0, 0],
  [0, 0, 9, 8, 0, 0, 0, 3, 6],
  [0, 0, 0, 3, 0, 6, 0, 9, 0]]

/-- The static `hard` puzzle from `sudokuPuzzles`. -/
def hardPuzzle : Grid := gridOfLists [
  [0, 0, 0, 6, 0, 0, 4, 0, 0],
  [7, 0, 0, 0, 0, 3, 6, 0, 0],
  [0, 0, 0, 0, 9, 1, 0, 8, 0],
  [0, 0, 0, 0, 0, 0, 0, 0, 0],
  [0, 5, 0, 1, 8, 0, 0, 0, 3],
  [0, 0, 0, 3, 0, 6, 0, 4, 5],
  [0, 4, 0, 2, 0, 0, 0, 6, 0],
  [9, 0, 3, 0, 0, 0, 0, 0, 0],
  [0, 2, 0, 0, 0, 0, 1, 0, 0]]

/-- The `sudokuPuzzles` table keyed by difficulty. -/
def sudokuPuzzles : Difficulty → Grid
  | Difficulty.easy => easyPuzzle
  | Difficulty.medium => mediumPuzzle
  | Difficulty.hard => hardPuzzle

/-- Index of a cell inside the 3x3 box band of coordinate `a`:
the source computes `startRow = row - row % 3` and walks offsets 0..2. -/
def boxIdx (a : Fin 9) (i : Fin 3) : Fin 9 :=
  ⟨a.val - a.val % 3 + i.val, by
    have h1 := a.isLt
    have h2 := i.isLt
    omega⟩

/-- The row scan of `isValidMove`: fails when `num` occurs in row `row`
at a column other than `col`. -/
def rowScan (grid : Grid) (row col : Fin 9) (num : Nat) : Bool :=
  (List.finRange 9).all fun x => !((x != col) && (grid row x == num))

/-- The column scan of `isValidMove`: fails when `num` occurs in column `col`
at a row other than `row`. -/
def colScan (grid : Grid) (row col : Fin 9) (num : Nat) : Bool :=
  (List.finRange 9).all fun x => !((x != row) && (grid x col == num))

/-- The box scan of `isValidMove`: fails when `num` occurs in the 3x3 box of
(row, col) at a cell other than (row, col). -/
def boxScan (grid : Grid) (row col : Fin 9) (num : Nat) : Bool :=
  (List.finRange 3).all fun i =>
    (List.finRange 3).all fun j =>
      !(((boxIdx row i != row) || (boxIdx col j != col)) &&
        (grid (boxIdx row i) (boxIdx col j) == num))

/-- `isValidMove(grid, row, col, num)`: the row scan, then the column scan,
then the 3x3 box scan; true only when none finds a duplicate. -/
def isValidMove (grid : Grid) (row col : Fin 9) (num : Nat) : Bool :=
  rowScan grid row col num && colScan grid row col num && boxScan grid row col num

/-- `isSolved(grid)`: false as soon as some cell is 0, true otherwise. -/
def isSolved (grid : Grid) : Bool :=
  (List.finRange 9).all fun row => (List.finRange 9).all fun col =>
    !(grid row col == 0)

/-- `newErrors.some(row => row.some(cell => cell))`: does any cell carry the
error flag? -/
def anyError (errors : Flags) : Bool :=
  (List.finRange 9).any fun r => (List.finRange 9).any fun c => errors r c

/-- The component state read and written by `handleCellClick`:
`grid` (the working grid), `initialGrid`, `errors`, `correctCells`,
`selectedNumber`, `selectedCell`, and the `gameOver` prop. -/
structure SessionState where
  grid : Grid
  initialGrid : Grid
  errors : Flags
  correctCells : Flags
  selectedNumber : Nat
  selectedCell : Option (Fin 9 × Fin 9)
  gameOver : Bool

/-- Outcome signal of one `handleCellClick` call: the early return on a
prefilled cell or a finished game (`CellLocked`), the invalid branch that
calls `onError` (`RejectedMove`), or the valid branch (`AcceptedMove`). -/
inductive Signal
  | CellLocked
  | RejectedMove
  | AcceptedMove
deriving DecidableEq

/-- Write value `v` at (row, col) of a grid, leaving other cells unchanged. -/
def setCell (g : Grid) (row col : Fin 9) (v : Nat) : Grid :=
  fun r c => if r = row ∧ c = col then v else g r c

/-- Write flag `v` at (row, col) of a flag grid, other cells unchanged. -/
def setFlag (f : Flags) (row col : Fin 9) (v : Bool) : Flags :=
  fun r c => if r = row ∧ c = col then v else f r c

/-- `handleCellClick(row, col)`. Returns the updated state, the outcome
signal, and whether `onSolved` is called (the solved check
`isSolved(newGrid) && !newErrors.some(...)` evaluated after the commit). -/
def handleCellClick (s : SessionState) (row col : Fin 9) :
    SessionState × Signal × Bool :=
  if (s.initialGrid row col != 0) || s.gameOver then
    (s, Signal.CellLocked, false)
  else
    let newGrid := setCell s.grid row col s.selectedNumber
    if (s.selectedNumber != 0) && !(isValidMove newGrid row col s.selectedNumber) then
      let newErrors := setFlag s.errors row col true
      let newCorrect := setFlag s.correctCells row col false
      let s1 : SessionState :=
        { grid := newGrid, initialGrid := s.initialGrid, errors := newErrors,
          correctCells := newCorrect, selectedNumber := s.selectedNumber,
          selectedCell := some (row, col), gameOver := s.gameOver }
      (s1, Signal.RejectedMove, isSolved newGrid && !(anyError newErrors))
    else
      let newErrors := setFlag s.errors row col false
      let newCorrect := setFlag s.correctCells row col true
      let s1 : SessionState :=
        { grid := newGrid, initialGrid := s.initialGrid, errors := newErrors,
          correctCells := newCorrect, selectedNumber := s.selectedNumber,
          selectedCell := some (row, col), gameOver := s.gameOver }
      (s1, Signal.AcceptedMove, isSolved newGrid && !(anyError newErrors))

/-- Session start for a chosen puzzle: the initialisation effect copies the
puzzle into `grid` and `initialGrid` and zeroes both flag arrays;
`selectedNumber` starts at 1, no cell selected, game not over. -/
def loadPuzzle (p : Grid) : SessionState :=
  { grid := p
    initialGrid := p
    errors := fun _ _ => false
    correctCells := fun _ _ => false
    selectedNumber := 1
    selectedCell := none
    gameOver := false }

/-- Session-level operations available to the collaborator: choosing the
pending digit (`handleNumberSelect`), clicking a cell (`handleCellClick`),
and the external life-exhaustion signal that drives the `gameOver` prop. -/
inductive Op
  | select (d : Nat)
  | placeAt (row col : Fin 9)
  | lifeSignal (b : Bool)

/-- Apply one session operation to the component state. -/
def applyOp (s : SessionState) (op : Op) : SessionState :=
  match op with
  | Op.select d => { s with selectedNumber := d }
  | Op.placeAt row col => (handleCellClick s row col).1
  | Op.lifeSignal b => { s with gameOver := b }

/-- Run a sequence of session operations from a starting state. -/
def runOps (s : SessionState) (ops : List Op) : SessionState :=
  ops.foldl applyOp s

/-- Play a list of cells: for each cell, select the digit the grid `sol`
holds there, then click the cell. Returns the final state and, per step,
whether that step raised the solved signal (`onSolved`). -/
def playSolution (sol : Grid) : SessionState → List (Fin 9 × Fin 9) → SessionState × List Bool
  | s, [] => (s, [])
  | s, rc :: rest =>
    let s1 : SessionState := { s with selectedNumber := sol rc.1 rc.2 }
    let step := handleCellClick s1 rc.1 rc.2
    let recres := playSolution sol step.1 rest
    (recres.1, step.2.2 :: recres.2)

/-- Session Outcome of the spec state machine. -/
inductive Outcome
  | InProgress
  | Solved
  | GameOver
deriving DecidableEq

/-- A session as seen by the collaborator layer: component state plus the
tracked Session Outcome. -/
structure Session where
  state : SessionState
  outcome : Outcome

/-- Modelled from the spec: the collaborator layer that owns Session Outcome
is not under src/ (only the `SudokuGrid` component is). Per the spec it must
ignore placements once the outcome is terminal, forward in-progress
placements to `handleCellClick`, and move to Solved when `PuzzleSolved` is
signalled. Returns the session, the emitted signal (none when terminal), and
the `PuzzleSolved` flag. -/
def attemptPlacement (sess : Session) (row col : Fin 9) :
    Session × Option Signal × Bool :=
  match sess.outcome with
  | Outcome.InProgress =>
    let r := handleCellClick sess.state row col
    ({ state := r.1,
       outcome := if r.2.2 then Outcome.Solved else Outcome.InProgress },
      some r.2.1, r.2.2)
  | Outcome.Solved => (sess, none, false)
  | Outcome.GameOver => (sess, none, false)

/-- The unique solution of the `easy` puzzle. -/
def easySolution : Grid := gridOfLists [
  [5, 3, 4, 6, 7, 8, 9, 1, 2],
  [6, 7, 2, 1, 9, 5, 3, 4, 8],
  [1, 9, 8, 3, 4, 2, 5, 6, 7],
  [8, 5, 9, 7, 6, 1, 4, 2, 3],
  [4, 2, 6, 8, 5, 3, 7, 9, 1],
  [7, 1, 3, 9, 2, 4, 8, 5, 6],
  [9, 6, 1, 5, 3, 7, 2, 8, 4],
  [2, 8, 7, 4, 1, 9, 6, 3, 5],
  [3, 4, 5, 2, 8, 6, 1, 7, 9]]

/-- Transpose a grid: swap the row and column indices. -/
def transpose (g : Grid) : Grid := fun r c => g c r

theorem rowScan_iff (grid : Grid) (row col : Fin 9) (num : Nat) :
    rowScan grid row col num = true ↔ ∀ x : Fin 9, x ≠ col → grid row x ≠ num := by
  simp only [rowScan, List.all_eq_true, List.mem_finRange, true_implies,
    Bool.not_eq_eq_eq_not, Bool.not_true, Bool.and_eq_false_imp, bne_iff_ne,
    beq_eq_false_iff_ne, ne_eq]

theorem colScan_iff (grid : Grid) (row col : Fin 9) (num : Nat) :
    colScan grid row col num = true ↔ ∀ x : Fin 9, x ≠ row → grid x col ≠ num := by
  simp only [colScan, List.all_eq_true, List.mem_finRange, true_implies,
    Bool.not_eq_eq_eq_not, Bool.not_true, Bool.and_eq_false_imp, bne_iff_ne,
    beq_eq_false_iff_ne, ne_eq]

/-- A cell coordinate lies in the 3-wide box band of `a` exactly when it is
`boxIdx a i` for some offset `i`. -/
theorem boxIdx_mem_band (a r : Fin 9) :
    (a.val - a.val % 3 ≤ r.val ∧ r.val ≤ a.val - a.val % 3 + 2) ↔
      ∃ i : Fin 3, boxIdx a i = r := by
  constructor
  · rintro ⟨h1, h2⟩
    refine ⟨⟨r.val - (a.val - a.val % 3), by omega⟩, ?_⟩
    apply Fin.ext
    simp only [boxIdx]
    omega
  · rintro ⟨i, rfl⟩
    have h1 := a.isLt
    have h2 := i.isLt
    simp only [boxIdx]
    omega

theorem boxScan_iff (grid : Grid) (row col : Fin 9) (num : Nat) :
    boxScan grid row col num = true ↔
      ∀ r c : Fin 9,
        row.val - row.val % 3 ≤ r.val → r.val ≤ row.val - row.val % 3 + 2 →
        col.val - col.val % 3 ≤ c.val → c.val ≤ col.val - col.val % 3 + 2 →
        ¬(r = row ∧ c = col) → grid r c ≠ num := by
  simp only [boxScan, List.all_eq_true, List.mem_finRange, true_implies]
  constructor
  · intro h r c h1 h2 h3 h4 h5
    obtain ⟨i, hi⟩ := (boxIdx_mem_band row r).mp ⟨h1, h2⟩
    obtain ⟨j, hj⟩ := (boxIdx_mem_band col c).mp ⟨h3, h4⟩
    have := h i j
    rw [hi, hj] at this
    simp only [Bool.not_eq_eq_eq_not, Bool.not_true, Bool.and_eq_false_imp,
      Bool.or_eq_true, bne_iff_ne, ne_eq, beq_eq_false_iff_ne] at this
    intro hcell
    rcases Decidable.em (r = row) with hr | hr
    · rcases Decidable.em (c = col) with hc | hc
      · exact h5 ⟨hr, hc⟩
      · exact (this (Or.inr hc)) hcell
    · exact (this (Or.inl hr)) hcell
  · intro h i j
    have hr := (boxIdx_mem_band row (boxIdx row i)).mpr ⟨i, rfl⟩
    have hc := (boxIdx_mem_band col (boxIdx col j)).mpr ⟨j, rfl⟩
    simp only [Bool.not_eq_eq_eq_not, Bool.not_true, Bool.and_eq_false_imp,
      Bool.or_eq_true, bne_iff_ne, ne_eq, beq_eq_false_iff_ne]
    intro hne
    exact h _ _ hr.1 hr.2 hc.1 hc.2 (by tauto)

/-- Characterisation of `isValidMove` as the conjunction of the three
duplicate-freedom conditions. -/
theorem isValidMove_char (grid : Grid) (row col : Fin 9) (num : Nat) :
    isValidMove grid row col num = true ↔
      ((∀ x : Fin 9, x ≠ col → grid row x ≠ num) ∧
       (∀ x : Fin 9, x ≠ row → grid x col ≠ num) ∧
       (∀ r c : Fin 9,
         row.val - row.val % 3 ≤ r.val → r.val ≤ row.val - row.val % 3 + 2 →
         col.val - col.val % 3 ≤ c.val → c.val ≤ col.val - col.val % 3 + 2 →
         ¬(r = row ∧ c = col) → grid r c ≠ num)) := by
  simp only [isValidMove, Bool.and_eq_true]
  rw [rowScan_iff, colScan_iff, boxScan_iff]
  tauto

theorem isSolved_iff (g : Grid) :
    isSolved g = true ↔ ∀ r c : Fin 9, g r c ≠ 0 := by
  simp [isSolved]

theorem anyError_eq_false_iff (e : Flags) :
    anyError e = false ↔ ∀ r c : Fin 9, e r c = false := by
  simp [anyError]

theorem anyError_setFlag_true (e : Flags) (row col : Fin 9) :
    anyError (setFlag e row col true) = true := by
  simp only [anyError, List.any_eq_true]
  exact ⟨row, List.mem_finRange row, col, List.mem_finRange col, by simp [setFlag]⟩

theorem bool_eq_of_iff {a b : Bool} (h : a = true ↔ b = true) : a = b := by
  cases a <;> cases b <;> simp_all

theorem handleCellClick_guard (s : SessionState) (row col : Fin 9)
    (h : ((s.initialGrid row col != 0) || s.gameOver) = true) :
    handleCellClick s row col = (s, Signal.CellLocked, false) := by
  simp [handleCellClick, h]

/-- On an editable cell of a running game, `handleCellClick` reduces to the
two-way branch on validity of the committed digit. -/
theorem handleCellClick_eq_of_editable (s : SessionState) (row col : Fin 9)
    (hedit : s.initialGrid row col = 0) (hgo : s.gameOver = false) :
    handleCellClick s row col =
      if (s.selectedNumber != 0) &&
          !(isValidMove (setCell s.grid row col s.selectedNumber) row col s.selectedNumber) then
        ({ grid := setCell s.grid row col s.selectedNumber, initialGrid := s.initialGrid,
           errors := setFlag s.errors row col true,
           correctCells := setFlag s.correctCells row col false,
           selectedNumber := s.selectedNumber, selectedCell := some (row, col),
           gameOver := s.gameOver },
         Signal.RejectedMove,
         isSolved (setCell s.grid row col s.selectedNumber) &&
           !(anyError (setFlag s.errors row col true)))
      else
        ({ grid := setCell s.grid row col s.selectedNumber, initialGrid := s.initialGrid,
           errors := setFlag s.errors row col false,
           correctCells := setFlag s.correctCells row col true,
           selectedNumber := s.selectedNumber, selectedCell := some (row, col),
           gameOver := s.gameOver },
         Signal.AcceptedMove,
         isSolved (setCell s.grid row col s.selectedNumber) &&
           !(anyError (setFlag s.errors row col false))) := by
  simp [handleCellClick, hedit, hgo]

theorem rowScan_transpose (g : Grid) (row col : Fin 9) (d : Nat) :
    rowScan (transpose g) col row d = colScan g row col d := rfl

theorem colScan_transpose (g : Grid) (row col : Fin 9) (d : Nat) :
    colScan (transpose g) col row d = rowScan g row col d := rfl

theorem boxScan_transpose (g : Grid) (row col : Fin 9) (d : Nat) :
    boxScan (transpose g) col row d = boxScan g row col d := by
  apply bool_eq_of_iff
  rw [boxScan_iff, boxScan_iff]
  constructor
  · intro h r c h1 h2 h3 h4 h5
    exact h c r h3 h4 h1 h2 (by tauto)
  · intro h r c h1 h2 h3 h4 h5
    exact h c r h3 h4 h1 h2 (by tauto)

/-- C3: for every grid, coordinates and digit 1..9 already written at the
target cell, `isValidMove` returns true iff the digit occurs nowhere else in
the target row, nowhere else in the target column, and nowhere else in the
3x3 box spanning rows `row - row % 3 .. +2` and columns `col - col % 3 .. +2`. -/
theorem isValidMove_spec (grid : Grid) (row col : Fin 9) (num : Nat)
    (h1 : 1 ≤ num) (h2 : num ≤ 9) (h3 : grid row col = num) :
    (isValidMove grid row col num = true ↔
      ((∀ x : Fin 9, x ≠ col → grid row x ≠ num) ∧
       (∀ x : Fin 9, x ≠ row → grid x col ≠ num) ∧
       (∀ r c : Fin 9,
         row.val - row.val % 3 ≤ r.val → r.val ≤ row.val - row.val % 3 + 2 →
         col.val - col.val % 3 ≤ c.val → c.val ≤ col.val - col.val % 3 + 2 →
         ¬(r = row ∧ c = col) → grid r c ≠ num))) :=
  isValidMove_char grid row col num

/-- Witness for C3 at the filled easy solution, cell (0,0), digit 5. -/
theorem isValidMove_spec_witness :
    (1 ≤ 5 ∧ 5 ≤ 9 ∧ easySolution 0 0 = 5) ∧
    (isValidMove easySolution 0 0 5 = true ↔
      ((∀ x : Fin 9, x ≠ 0 → easySolution 0 x ≠ 5) ∧
       (∀ x : Fin 9, x ≠ 0 → easySolution x 0 ≠ 5) ∧
       (∀ r c : Fin 9,
         (0 : Fin 9).val - (0 : Fin 9).val % 3 ≤ r.val →
         r.val ≤ (0 : Fin 9).val - (0 : Fin 9).val % 3 + 2 →
         (0 : Fin 9).val - (0 : Fin 9).val % 3 ≤ c.val →
         c.val ≤ (0 : Fin 9).val - (0 : Fin 9).val % 3 + 2 →
         ¬(r = 0 ∧ c = 0) → easySolution r c ≠ 5))) :=
  ⟨⟨by decide, by decide, by decide⟩,
    isValidMove_spec easySolution 0 0 5 (by decide) (by decide) (by decide)⟩

/-- C7: on the freshly loaded easy puzzle, placing 4 at (0,2) is accepted
and marks the cell correct, while placing 5 at (0,2) is rejected. -/
theorem easy_puzzle_examples :
    (handleCellClick { loadPuzzle easyPuzzle with selectedNumber := 4 } 0 2).2.1 =
        Signal.AcceptedMove ∧
    (handleCellClick { loadPuzzle easyPuzzle with selectedNumber := 4 } 0 2).1.correctCells 0 2 =
        true ∧
    (handleCellClick { loadPuzzle easyPuzzle with selectedNumber := 5 } 0 2).2.1 =
        Signal.RejectedMove :=
  ⟨by decide, by decide, by decide⟩

/-- C8: `isValidMove` on the transposed grid with swapped coordinates agrees
with `isValidMove` on the original, and its value is unchanged when the row,
column and box scans are conjoined in any other order. -/
theorem isValidMove_transpose_scan_order (g : Grid) (row col : Fin 9) (d : Nat) :
    isValidMove (transpose g) col row d = isValidMove g row col d ∧
    (isValidMove g row col d =
        (rowScan g row col d && (boxScan g row col d && colScan g row col d)) ∧
     isValidMove g row col d =
        (colScan g row col d && (rowScan g row col d && boxScan g row col d)) ∧
     isValidMove g row col d =
        (colScan g row col d && (boxScan g row col d && rowScan g row col d)) ∧
     isValidMove g row col d =
        (boxScan g row col d && (rowScan g row col d && colScan g row col d)) ∧
     isValidMove g row col d =
        (boxScan g row col d && (colScan g row col d && rowScan g row col d))) := by
  refine ⟨?_, ?_, ?_, ?_, ?_, ?_⟩ <;>
    simp [isValidMove, rowScan_transpose, colScan_transpose, boxScan_transpose,
      Bool.and_comm, Bool.and_left_comm, Bool.and_assoc]

/-- C10: a call that signals `RejectedMove` never raises the solved signal:
the error flag just written at the target cell falsifies the no-error
conjunct of the solved check. -/
theorem rejected_never_solves (s : SessionState) (row col : Fin 9)
    (h : (handleCellClick s row col).2.1 = Signal.RejectedMove) :
    (handleCellClick s row col).2.2 = false := by
  by_cases h1 : ((s.initialGrid row col != 0) || s.gameOver) = true
  · rw [handleCellClick_guard s row col h1] at h
    simp at h
  · rw [Bool.not_eq_true] at h1
    rw [Bool.or_eq_false_iff] at h1
    obtain ⟨he, hg⟩ := h1
    rw [bne_eq_false_iff_eq] at he
    rw [handleCellClick_eq_of_editable s row col he hg]
    split
    · simp [anyError_setFlag_true]
    · rw [handleCellClick_eq_of_editable s row col he hg] at h
      split at h
      · simp_all
      · simp at h

/-- Witness for C10: rejecting 5 at (0,2) of the easy puzzle does not solve. -/
theorem rejected_never_solves_witness :
    (handleCellClick { loadPuzzle easyPuzzle with selectedNumber := 5 } 0 2).2.1 =
        Signal.RejectedMove ∧
    (handleCellClick { loadPuzzle easyPuzzle with selectedNumber := 5 } 0 2).2.2 = false :=
  ⟨by decide, rejected_never_solves _ 0 2 (by decide)⟩

/-- C2: after any placement on an editable cell of a running game, the
solved signal fires iff the updated working grid has no empty cell and no
cell of the updated error flags is set; the check reads only those stored
flags, with no board-wide legality re-scan. -/
theorem solved_signal_iff (s : SessionState) (row col : Fin 9)
    (hedit : s.initialGrid row col = 0) (hgo : s.gameOver = false) :
    ((handleCellClick s row col).2.2 = true ↔
      ((∀ r c : Fin 9, (handleCellClick s row col).1.grid r c ≠ 0) ∧
       (∀ r c : Fin 9, (handleCellClick s row col).1.errors r c = false))) := by
  rw [handleCellClick_eq_of_editable s row col hedit hgo]
  split <;>
  · dsimp only
    rw [Bool.and_eq_true, Bool.not_eq_true', isSolved_iff, anyError_eq_false_iff]

/-- Witness for C2 on the easy puzzle, digit 4 at (0,2). -/
theorem solved_signal_iff_witness :
    (({ loadPuzzle easyPuzzle with selectedNumber := 4 } : SessionState).initialGrid 0 2 = 0 ∧
     ({ loadPuzzle easyPuzzle with selectedNumber := 4 } : SessionState).gameOver = false) ∧
    ((handleCellClick { loadPuzzle easyPuzzle with selectedNumber := 4 } 0 2).2.2 = true ↔
      ((∀ r c : Fin 9,
          (handleCellClick { loadPuzzle easyPuzzle with selectedNumber := 4 } 0 2).1.grid r c ≠ 0) ∧
       (∀ r c : Fin 9,
          (handleCellClick { loadPuzzle easyPuzzle with selectedNumber := 4 } 0 2).1.errors r c =
            false))) :=
  ⟨⟨by decide, by decide⟩, solved_signal_iff _ 0 2 (by decide) (by decide)⟩

/-- C4: placing digit d on an editable cell of a running game commits d into
the working grid; when the move is invalid the cell is flagged error and
`RejectedMove` (the `onError` feedback) is signalled; when valid the cell is
flagged correct and `AcceptedMove` is signalled. -/
theorem placement_outcomes (s : SessionState) (row col : Fin 9) (d : Nat)
    (hedit : s.initialGrid row col = 0) (hgo : s.gameOver = false)
    (hsel : s.selectedNumber = d) (hd1 : 1 ≤ d) (hd9 : d ≤ 9) :
    (handleCellClick s row col).1.grid row col = d ∧
    (isValidMove (setCell s.grid row col d) row col d = false →
      (handleCellClick s row col).1.errors row col = true ∧
      (handleCellClick s row col).1.correctCells row col = false ∧
      (handleCellClick s row col).2.1 = Signal.RejectedMove) ∧
    (isValidMove (setCell s.grid row col d) row col d = true →
      (handleCellClick s row col).1.errors row col = false ∧
      (handleCellClick s row col).1.correctCells row col = true ∧
      (handleCellClick s row col).2.1 = Signal.AcceptedMove) := by
  subst hsel
  rw [handleCellClick_eq_of_editable s row col hedit hgo]
  have hne : (s.selectedNumber != 0) = true := by
    rw [bne_iff_ne]
    omega
  by_cases hv : isValidMove (setCell s.grid row col s.selectedNumber) row col
      s.selectedNumber = true
  · simp [hne, hv, setCell, setFlag]
  · rw [Bool.not_eq_true] at hv
    simp [hne, hv, setCell, setFlag]

/-- Witness for C4 on the easy puzzle, digit 4 at (0,2). -/
theorem placement_outcomes_witness :
    (({ loadPuzzle easyPuzzle with selectedNumber := 4 } : SessionState).initialGrid 0 2 = 0 ∧
     ({ loadPuzzle easyPuzzle with selectedNumber := 4 } : SessionState).gameOver = false ∧
     ({ loadPuzzle easyPuzzle with selectedNumber := 4 } : SessionState).selectedNumber = 4 ∧
     1 ≤ 4 ∧ 4 ≤ 9) ∧
    ((handleCellClick { loadPuzzle easyPuzzle with selectedNumber := 4 } 0 2).1.grid 0 2 = 4 ∧
     (isValidMove
        (setCell ({ loadPuzzle easyPuzzle with selectedNumber := 4 } : SessionState).grid 0 2 4)
        0 2 4 = false →
      (handleCellClick { loadPuzzle easyPuzzle with selectedNumber := 4 } 0 2).1.errors 0 2 =
          true ∧
      (handleCellClick { loadPuzzle easyPuzzle with selectedNumber := 4 } 0 2).1.correctCells
          0 2 = false ∧
      (handleCellClick { loadPuzzle easyPuzzle with selectedNumber := 4 } 0 2).2.1 =
          Signal.RejectedMove) ∧
     (isValidMove
        (setCell ({ loadPuzzle easyPuzzle with selectedNumber := 4 } : SessionState).grid 0 2 4)
        0 2 4 = true →
      (handleCellClick { loadPuzzle easyPuzzle with selectedNumber := 4 } 0 2).1.errors 0 2 =
          false ∧
      (handleCellClick { loadPuzzle easyPuzzle with selectedNumber := 4 } 0 2).1.correctCells
          0 2 = true ∧
      (handleCellClick { loadPuzzle easyPuzzle with selectedNumber := 4 } 0 2).2.1 =
          Signal.AcceptedMove)) :=
  ⟨⟨by decide, by decide, by decide, by decide, by decide⟩,
    placement_outcomes _ 0 2 4 (by decide) (by decide) (by decide) (by decide) (by decide)⟩

/-- C9: a placement on an editable cell of a running game overwrites the
previous working value with the selected digit and recomputes both flags
solely from the validity of the new digit; in particular a valid placement
clears an error flag left by an earlier rejected move. -/
theorem placement_overwrites (s : SessionState) (row col : Fin 9)
    (hedit : s.initialGrid row col = 0) (hgo : s.gameOver = false) :
    (handleCellClick s row col).1.grid row col = s.selectedNumber ∧
    (handleCellClick s row col).1.errors row col =
      ((s.selectedNumber != 0) &&
        !(isValidMove (setCell s.grid row col s.selectedNumber) row col s.selectedNumber)) ∧
    (handleCellClick s row col).1.correctCells row col =
      !((s.selectedNumber != 0) &&
        !(isValidMove (setCell s.grid row col s.selectedNumber) row col s.selectedNumber)) ∧
    (s.errors row col = true →
      isValidMove (setCell s.grid row col s.selectedNumber) row col s.selectedNumber = true →
      (handleCellClick s row col).1.errors row col = false) := by
  rw [handleCellClick_eq_of_editable s row col hedit hgo]
  by_cases hc : ((s.selectedNumber != 0) &&
      !(isValidMove (setCell s.grid row col s.selectedNumber) row col s.selectedNumber)) = true
  · have hparts := hc
    rw [Bool.and_eq_true, Bool.not_eq_true'] at hparts
    have hb : (s.selectedNumber != 0) = true := hparts.1
    have hv : isValidMove (setCell s.grid row col s.selectedNumber) row col
        s.selectedNumber = false := hparts.2
    have hn : s.selectedNumber ≠ 0 := by
      rw [bne_iff_ne] at hb
      exact hb
    simp [hb, hv, hn, setCell, setFlag]
  · rw [Bool.not_eq_true] at hc
    simp [hc, setCell, setFlag]

/-- Witness for C9 on the easy puzzle, digit 4 at (0,2). -/
theorem placement_overwrites_witness :
    (({ loadPuzzle easyPuzzle with selectedNumber := 4 } : SessionState).initialGrid 0 2 = 0 ∧
     ({ loadPuzzle easyPuzzle with selectedNumber := 4 } : SessionState).gameOver = false) ∧
    ((handleCellClick { loadPuzzle easyPuzzle with selectedNumber := 4 } 0 2).1.grid 0 2 =
        ({ loadPuzzle easyPuzzle with selectedNumber := 4 } : SessionState).selectedNumber ∧
     (handleCellClick { loadPuzzle easyPuzzle with selectedNumber := 4 } 0 2).1.errors 0 2 =
       ((({ loadPuzzle easyPuzzle with selectedNumber := 4 } : SessionState).selectedNumber != 0) &&
         !(isValidMove
            (setCell ({ loadPuzzle easyPuzzle with selectedNumber := 4 } : SessionState).grid 0 2
              ({ loadPuzzle easyPuzzle with selectedNumber := 4 } : SessionState).selectedNumber)
            0 2
            ({ loadPuzzle easyPuzzle with selectedNumber := 4 } : SessionState).selectedNumber)) ∧
     (handleCellClick { loadPuzzle easyPuzzle with selectedNumber := 4 } 0 2).1.correctCells 0 2 =
       !((({ loadPuzzle easyPuzzle with selectedNumber := 4 } : SessionState).selectedNumber != 0) &&
         !(isValidMove
            (setCell ({ loadPuzzle easyPuzzle with selectedNumber := 4 } : SessionState).grid 0 2
              ({ loadPuzzle easyPuzzle with selectedNumber := 4 } : SessionState).selectedNumber)
            0 2
            ({ loadPuzzle easyPuzzle with selectedNumber := 4 } : SessionState).selectedNumber)) ∧
     (({ loadPuzzle easyPuzzle with selectedNumber := 4 } : SessionState).errors 0 2 = true →
      isValidMove
          (setCell ({ loadPuzzle easyPuzzle with selectedNumber := 4 } : SessionState).grid 0 2
            ({ loadPuzzle easyPuzzle with selectedNumber := 4 } : SessionState).selectedNumber)
          0 2
          ({ loadPuzzle easyPuzzle with selectedNumber := 4 } : SessionState).selectedNumber = true →
      (handleCellClick { loadPuzzle easyPuzzle with selectedNumber := 4 } 0 2).1.errors 0 2 =
          false)) :=
  ⟨⟨by decide, by decide⟩, placement_overwrites _ 0 2 (by decide) (by decide)⟩

/-- C1: once the Session Outcome is terminal (Solved or GameOver),
`attemptPlacement` returns the session unchanged, emits no signal and raises
no solved flag, for any row and column. -/
theorem terminal_attempt_noop (sess : Session) (row col : Fin 9)
    (h : sess.outcome = Outcome.Solved ∨ sess.outcome = Outcome.GameOver) :
    attemptPlacement sess row col = (sess, none, false) := by
  rcases h with h | h <;> simp [attemptPlacement, h]

/-- Witness for C1 at a solved session over the easy puzzle. -/
theorem terminal_attempt_noop_witness :
    ((⟨loadPuzzle easyPuzzle, Outcome.Solved⟩ : Session).outcome = Outcome.Solved ∨
     (⟨loadPuzzle easyPuzzle, Outcome.Solved⟩ : Session).outcome = Outcome.GameOver) ∧
    attemptPlacement (⟨loadPuzzle easyPuzzle, Outcome.Solved⟩ : Session) 0 0 =
      ((⟨loadPuzzle easyPuzzle, Outcome.Solved⟩ : Session), none, false) :=
  ⟨Or.inl rfl, terminal_attempt_noop _ 0 0 (Or.inl rfl)⟩

theorem applyOp_preserves (p : Grid) (s : SessionState) (op : Op)
    (hinit : ∀ r c : Fin 9, s.initialGrid r c = p r c)
    (hinv : ∀ r c : Fin 9, p r c ≠ 0 → s.grid r c = p r c) :
    (∀ r c : Fin 9, (applyOp s op).initialGrid r c = p r c) ∧
    (∀ r c : Fin 9, p r c ≠ 0 → (applyOp s op).grid r c = p r c) := by
  cases op with
  | select d => exact ⟨hinit, hinv⟩
  | lifeSignal b => exact ⟨hinit, hinv⟩
  | placeAt row col =>
    by_cases h1 : ((s.initialGrid row col != 0) || s.gameOver) = true
    · rw [applyOp, handleCellClick_guard s row col h1]
      exact ⟨hinit, hinv⟩
    · rw [Bool.not_eq_true, Bool.or_eq_false_iff] at h1
      obtain ⟨he, hg⟩ := h1
      rw [bne_eq_false_iff_eq] at he
      rw [applyOp, handleCellClick_eq_of_editable s row col he hg]
      have hmain : ∀ r c : Fin 9, p r c ≠ 0 →
          setCell s.grid row col s.selectedNumber r c = p r c := by
        intro r c hpc
        have hne : ¬(r = row ∧ c = col) := by
          rintro ⟨rfl, rfl⟩
          rw [hinit r c] at he
          exact hpc he
        rw [setCell, if_neg hne]
        exact hinv r c hpc
      constructor
      · intro r c
        split <;> exact hinit r c
      · intro r c hpc
        split <;> exact hmain r c hpc

theorem runOps_preserves (p : Grid) (ops : List Op) :
    ∀ s : SessionState,
      (∀ r c : Fin 9, s.initialGrid r c = p r c) →
      (∀ r c : Fin 9, p r c ≠ 0 → s.grid r c = p r c) →
      ∀ r c : Fin 9, p r c ≠ 0 → (runOps s ops).grid r c = p r c := by
  induction ops with
  | nil => intro s _ hinv; exact hinv
  | cons op rest ih =>
    intro s hinit hinv
    have h := applyOp_preserves p s op hinit hinv
    exact ih (applyOp s op) h.1 h.2

/-- C5: clicking a prefilled cell is always rejected as locked with no state
change, and consequently every prefilled cell keeps its initial value across
any sequence of session operations from puzzle load. -/
theorem prefilled_locked_invariant :
    (∀ (s : SessionState) (row col : Fin 9), s.initialGrid row col ≠ 0 →
      handleCellClick s row col = (s, Signal.CellLocked, false)) ∧
    (∀ (p : Grid) (ops : List Op) (row col : Fin 9), p row col ≠ 0 →
      (runOps (loadPuzzle p) ops).grid row col = p row col) := by
  constructor
  · intro s row col h
    apply handleCellClick_guard
    simp [h]
  · intro p ops row col h
    exact runOps_preserves p ops (loadPuzzle p) (fun _ _ => rfl) (fun _ _ _ => rfl) row col h

/-- Witness for C5: the prefilled corner of the easy puzzle. -/
theorem prefilled_locked_invariant_witness :
    ((loadPuzzle easyPuzzle).initialGrid 0 0 ≠ 0 ∧
      handleCellClick (loadPuzzle easyPuzzle) 0 0 =
        (loadPuzzle easyPuzzle, Signal.CellLocked, false)) ∧
    (easyPuzzle 0 0 ≠ 0 ∧
      (runOps (loadPuzzle easyPuzzle) [Op.placeAt 0 0]).grid 0 0 = easyPuzzle 0 0) :=
  ⟨⟨by decide, prefilled_locked_invariant.1 _ 0 0 (by decide)⟩,
   ⟨by decide, prefilled_locked_invariant.2 easyPuzzle [Op.placeAt 0 0] 0 0 (by decide)⟩⟩

/-- A grid each of whose cells is either empty or agrees with a fully valid
completed grid accepts that completed grid's digit at every cell. -/
theorem valid_of_subgrid (g sol : Grid) (row col : Fin 9)
    (hval : isValidMove sol row col (sol row col) = true)
    (h0 : sol row col ≠ 0)
    (hsub : ∀ r c : Fin 9, g r c = 0 ∨ g r c = sol r c) :
    isValidMove g row col (sol row col) = true := by
  rw [isValidMove_char] at hval ⊢
  obtain ⟨hr, hc, hb⟩ := hval
  refine ⟨?_, ?_, ?_⟩
  · intro x hx
    rcases hsub row x with h | h
    · rw [h]; exact fun hh => h0 hh.symm
    · rw [h]; exact hr x hx
  · intro x hx
    rcases hsub x col with h | h
    · rw [h]; exact fun hh => h0 hh.symm
    · rw [h]; exact hc x hx
  · intro r c h1 h2 h3 h4 h5
    rcases hsub r c with h | h
    · rw [h]; exact fun hh => h0 hh.symm
    · rw [h]; exact hb r c h1 h2 h3 h4 h5

/-- The solved-signal pattern expected over n placements: quiet until the
last one. -/
def lastOnlyFlags (n : Nat) : List Bool :=
  match n with
  | 0 => []
  | Nat.succ m => List.replicate m false ++ [true]

theorem playSolution_flags (sol : Grid)
    (hne0 : ∀ r c : Fin 9, sol r c ≠ 0)
    (hval : ∀ r c : Fin 9, isValidMove sol r c (sol r c) = true) :
    ∀ (L : List (Fin 9 × Fin 9)) (s : SessionState),
      s.gameOver = false →
      (∀ r c : Fin 9, s.errors r c = false) →
      (∀ rc ∈ L, s.initialGrid rc.1 rc.2 = 0) →
      L.Nodup →
      (∀ r c : Fin 9, s.grid r c = if (r, c) ∈ L then 0 else sol r c) →
      (playSolution sol s L).2 = lastOnlyFlags L.length := by
  intro L
  induction L with
  | nil =>
    intro s _ _ _ _ _
    rfl
  | cons rc rest ih =>
    obtain ⟨a, b⟩ := rc
    intro s hgo herr hinit hnodup hgrid
    have hab : (a, b) ∉ rest := (List.nodup_cons.mp hnodup).1
    have he : s.initialGrid a b = 0 := hinit (a, b) (List.mem_cons_self _ _)
    have hsub : ∀ r c : Fin 9,
        setCell s.grid a b (sol a b) r c = 0 ∨
        setCell s.grid a b (sol a b) r c = sol r c := by
      intro r c
      rw [setCell]
      split
      · rename_i h
        obtain ⟨rfl, rfl⟩ := h
        exact Or.inr rfl
      · rw [hgrid r c]
        split
        · exact Or.inl rfl
        · exact Or.inr rfl
    have hvalid : isValidMove (setCell s.grid a b (sol a b)) a b (sol a b) = true :=
      valid_of_subgrid _ sol a b (hval a b) (hne0 a b) hsub
    have hstep : handleCellClick { s with selectedNumber := sol a b } a b =
        ({ grid := setCell s.grid a b (sol a b), initialGrid := s.initialGrid,
           errors := setFlag s.errors a b false,
           correctCells := setFlag s.correctCells a b true,
           selectedNumber := sol a b, selectedCell := some (a, b),
           gameOver := s.gameOver },
         Signal.AcceptedMove,
         isSolved (setCell s.grid a b (sol a b)) &&
           !(anyError (setFlag s.errors a b false))) := by
      rw [handleCellClick_eq_of_editable { s with selectedNumber := sol a b } a b he hgo]
      dsimp only
      rw [hvalid]
      simp
    have herr2 : ∀ r c : Fin 9, setFlag s.errors a b false r c = false := by
      intro r c
      rw [setFlag]
      split
      · rfl
      · exact herr r c
    have hany : anyError (setFlag s.errors a b false) = false :=
      (anyError_eq_false_iff _).mpr herr2
    have hgrid2 : ∀ r c : Fin 9,
        setCell s.grid a b (sol a b) r c = if (r, c) ∈ rest then 0 else sol r c := by
      intro r c
      rw [setCell]
      split
      · rename_i h
        obtain ⟨rfl, rfl⟩ := h
        rw [if_neg hab]
      · rename_i h
        rw [hgrid r c]
        by_cases hm : (r, c) ∈ rest
        · rw [if_pos (List.mem_cons_of_mem _ hm), if_pos hm]
        · rw [if_neg, if_neg hm]
          intro hmem
          rcases List.mem_cons.mp hmem with h' | h'
          · exact h ⟨congrArg Prod.fst h', congrArg Prod.snd h'⟩
          · exact hm h'
    have hrec := ih
      { grid := setCell s.grid a b (sol a b), initialGrid := s.initialGrid,
        errors := setFlag s.errors a b false,
        correctCells := setFlag s.correctCells a b true,
        selectedNumber := sol a b, selectedCell := some (a, b),
        gameOver := s.gameOver }
      hgo herr2 (fun rc2 h2 => hinit rc2 (List.mem_cons_of_mem _ h2))
      (List.nodup_cons.mp hnodup).2 hgrid2
    simp only [playSolution]
    rw [hstep]
    dsimp only
    rw [hrec, hany]
    cases rest with
    | nil =>
      have hsolved : isSolved (setCell s.grid a b (sol a b)) = true := by
        rw [isSolved_iff]
        intro r c
        rw [hgrid2 r c]
        simp [hne0 r c]
      rw [hsolved]
      rfl
    | cons rc2 rest2 =>
      have hzero : setCell s.grid a b (sol a b) rc2.1 rc2.2 = 0 := by
        rw [hgrid2 rc2.1 rc2.2, if_pos]
        exact List.mem_cons_self _ _
      have hunsolved : isSolved (setCell s.grid a b (sol a b)) = false := by
        rw [← Bool.not_eq_true, isSolved_iff]
        intro hall
        exact hall rc2.1 rc2.2 hzero
      rw [hunsolved]
      simp [lastOnlyFlags, List.replicate_succ]

/-- C6: for any of the three puzzles, any complete correct solution of it,
and any enumeration order of its empty cells, playing the solution digit
into each empty cell in that order raises the solved signal exactly at the
final placement and at none before. -/
theorem solution_play_solves (d : Difficulty) (p sol : Grid)
    (hp : p = sudokuPuzzles d)
    (hext : ∀ r c : Fin 9, p r c ≠ 0 → sol r c = p r c)
    (hne0 : ∀ r c : Fin 9, sol r c ≠ 0)
    (hval : ∀ r c : Fin 9, isValidMove sol r c (sol r c) = true)
    (L : List (Fin 9 × Fin 9))
    (hmem : ∀ rc : Fin 9 × Fin 9, rc ∈ L ↔ p rc.1 rc.2 = 0)
    (hnodup : L.Nodup) (hne : L ≠ []) :
    (playSolution sol (loadPuzzle p) L).2 =
      List.replicate (L.length - 1) false ++ [true] := by
  have hgridL : ∀ r c : Fin 9,
      (loadPuzzle p).grid r c = if (r, c) ∈ L then 0 else sol r c := by
    intro r c
    show p r c = if (r, c) ∈ L then 0 else sol r c
    by_cases h0 : p r c = 0
    · rw [if_pos ((hmem (r, c)).mpr h0), h0]
    · rw [if_neg (fun hm => h0 ((hmem (r, c)).mp hm)), hext r c h0]
  have h := playSolution_flags sol hne0 hval L (loadPuzzle p) rfl (fun _ _ => rfl)
    (fun rc hrc => (hmem rc).mp hrc) hnodup hgridL
  rw [h]
  cases L with
  | nil => exact absurd rfl hne
  | cons x xs => simp [lastOnlyFlags]

/-- The empty cells of the easy puzzle in row-major order. -/
def easyEmptyCells : List (Fin 9 × Fin 9) := [
  (0, 2), (0, 3), (0, 5), (0, 6), (0, 7), (0, 8),
  (1, 1), (1, 2), (1, 6), (1, 7), (1, 8), (2, 0),
  (2, 3), (2, 4), (2, 5), (2, 6), (2, 8), (3, 1),
  (3, 2), (3, 3), (3, 5), (3, 6), (3, 7), (4, 1),
  (4, 2), (4, 4), (4, 6), (4, 7), (5, 1), (5, 2),
  (5, 3), (5, 5), (5, 6), (5, 7), (6, 0), (6, 2),
  (6, 3), (6, 4), (6, 5), (6, 8), (7, 0), (7, 1),
  (7, 2), (7, 6), (7, 7), (8, 0), (8, 1), (8, 2),
  (8, 3), (8, 5), (8, 6)]

/-- Witness for C6: the easy puzzle, its solution, row-major cell order. -/
theorem solution_play_solves_witness :
    (easyPuzzle = sudokuPuzzles Difficulty.easy ∧
     (∀ r c : Fin 9, easyPuzzle r c ≠ 0 → easySolution r c = easyPuzzle r c) ∧
     (∀ r c : Fin 9, easySolution r c ≠ 0) ∧
     (∀ r c : Fin 9, isValidMove easySolution r c (easySolution r c) = true) ∧
     (∀ rc : Fin 9 × Fin 9, rc ∈ easyEmptyCells ↔ easyPuzzle rc.1 rc.2 = 0) ∧
     easyEmptyCells.Nodup ∧ easyEmptyCells ≠ []) ∧
    (playSolution easySolution (loadPuzzle easyPuzzle) easyEmptyCells).2 =
      List.replicate (easyEmptyCells.length - 1) false ++ [true] :=
  ⟨⟨rfl, by decide, by decide, by decide, by decide, by decide, by decide⟩,
    solution_play_solves Difficulty.easy easyPuzzle easySolution rfl (by decide) (by decide)
      (by decide) easyEmptyCells (by decide) (by decide) (by decide)⟩

end Sudoku
